import Mathlib

/-!
Shallow embedding of the accounting core of the Mobys mobile-money backend:
the ledger store, balance aggregator, transaction status machine, webhook
application, webhook retry manager, signature-verification middleware and the
reconciliation service, translated from
  src/functions/src/utils/ledger.ts
  src/functions/src/routes.ts (POST /webhook/payment)
  src/functions/src/middleware.ts
  src/functions/src/utils/phone-validation.ts (WebhookRetryManager).

Modelling conventions:
* Firestore collections become association lists keyed by document id, held in
  a `St` record; every effectful function is written in explicit state-passing
  style `... -> Except Err A × St` so that partial writes made before a thrown
  error stay visible in the returned state (as they do in the source, where
  each `await db...` commits independently).
* The ledger collection is kept newest-first (each `set` prepends), so the
  `orderBy created_at desc` of the read queries is the identity on the list.
* JavaScript numbers are modelled by `JsNum`: a finite integer (all amounts in
  the repository are whole XOF units) or one of the non-finite values
  `nan`, `inf`, `ninf`, with JavaScript `+`, `-`, `<`, `===` semantics.
* Server timestamps (`FieldValue.serverTimestamp()`, `Date.now()`) and the
  randomly generated document ids are passed in as explicit `now`/id
  parameters.
* `crypto.timingSafeEqual` of two hex digests is modelled as string equality
  of digests; the HMAC itself is an abstract function parameter.
-/

/-- JavaScript number: finite (integer) value or one of the IEEE non-finite
values. Amounts in the repository are whole XOF units, so the finite case
carries an `Int`. -/
inductive JsNum where
  | num (n : Int)
  | nan
  | inf
  | ninf
deriving DecidableEq, Repr

/-- JavaScript `+` on numbers. -/
def JsNum.add : JsNum → JsNum → JsNum
  | nan, _ => nan
  | _, nan => nan
  | inf, ninf => nan
  | ninf, inf => nan
  | inf, _ => inf
  | _, inf => inf
  | ninf, _ => ninf
  | _, ninf => ninf
  | num a, num b => num (a + b)

/-- JavaScript `-` on numbers. -/
def JsNum.sub : JsNum → JsNum → JsNum
  | nan, _ => nan
  | _, nan => nan
  | inf, inf => nan
  | ninf, ninf => nan
  | inf, _ => inf
  | _, inf => ninf
  | ninf, _ => ninf
  | _, ninf => inf
  | num a, num b => num (a - b)

/-- JavaScript `<` on numbers (`false` whenever `NaN` is involved). -/
def JsNum.lt : JsNum → JsNum → Bool
  | nan, _ => false
  | _, nan => false
  | ninf, ninf => false
  | ninf, _ => true
  | _, ninf => false
  | inf, _ => false
  | num _, inf => true
  | num a, num b => decide (a < b)

/-- JavaScript `===` on numbers (`NaN` is not equal to anything, itself
included). -/
def JsNum.eqb : JsNum → JsNum → Bool
  | num a, num b => a == b
  | inf, inf => true
  | ninf, ninf => true
  | _, _ => false

/-- JavaScript truthiness of a number: `0` and `NaN` are falsy. -/
def JsNum.truthy : JsNum → Bool
  | num a => a != 0
  | nan => false
  | inf => true
  | ninf => true

/-- The JavaScript pattern `x || 0` on an optionally-present number
(`userBalance?.available_balance || 0` in the source). -/
def jsOrZero (v : Option JsNum) : JsNum :=
  match v with
  | none => JsNum.num 0
  | some x => if JsNum.truthy x then x else JsNum.num 0

/-- JavaScript `String.prototype.trim`, written over the character list so that it
reduces in the kernel. -/
def strTrim (s : String) : String :=
  String.mk (((s.data.dropWhile Char.isWhitespace).reverse.dropWhile
      Char.isWhitespace).reverse)

/-- JavaScript `String.prototype.toLowerCase`, over the character list. -/
def strLower (s : String) : String :=
  String.mk (s.data.map Char.toLower)

/-- Ledger entry document (interface `LedgerEntry`, ledger.ts). `type` and
`status` are kept as strings, as they are at runtime (the validator itself
re-checks membership of `type` in the five kinds). The free-form
`metadata`/`reference` audit fields carry no behaviour and are not modelled. -/
structure LedgerEntry where
  id : String
  user_id : String
  transaction_id : Option String
  type : String
  amount : JsNum
  currency : String
  balance_before : JsNum
  balance_after : JsNum
  description : String
  created_at : Nat
  created_by : String
  status : String
deriving DecidableEq, Repr

/-- Cached balance document (interface `Balance`, ledger.ts). -/
structure Balance where
  user_id : String
  available_balance : JsNum
  pending_balance : JsNum
  total_balance : JsNum
  currency : String
  last_updated : Nat
  last_transaction_id : Option String
deriving DecidableEq, Repr

/-- Status-history document (interface `TransactionStatus`, ledger.ts). -/
structure TransactionStatus where
  id : String
  status : String
  previous_status : Option String
  updated_at : Nat
  updated_by : String
  reason : Option String
deriving DecidableEq, Repr

/-- A document of the `transactions` collection, with the fields the
accounting core reads. -/
structure TransactionRec where
  user_id : String
  amount : JsNum
  currency : String
  status : String
  provider : String
  phone : String
  updated_at : Nat
deriving DecidableEq, Repr

/-- A document of the `webhooks` log collection (the fields the webhook route
writes that matter to the claims). -/
structure WebhookLog where
  id : String
  transaction_id : String
  provider : String
  normalized_status : String
  processed : Bool
deriving DecidableEq, Repr

/-- The Firestore collections touched by the accounting core. -/
structure St where
  ledger : List LedgerEntry
  balances : List (String × Balance)
  transactions : List (String × TransactionRec)
  status_history : List TransactionStatus
  webhooks : List WebhookLog
deriving DecidableEq, Repr

/-- Firestore `db.collection(c).doc(k).set(v)` on an association list: replace the
document if present, otherwise append it. -/
def setDoc {β : Type} (k : String) (v : β) : List (String × β) → List (String × β)
  | [] => [(k, v)]
  | (k', v') :: rest => if k' == k then (k, v) :: rest else (k', v') :: setDoc k v rest

/-- The typed errors thrown by the accounting core (`throw new Error(...)` in
the source, distinguished here by their messages). -/
inductive LedgerError where
  | invalidEntry (msg : String)
  | insufficientBalance (kind : String)
  | unknownEntryType (t : String)
  | transactionNotFound (id : String)
deriving DecidableEq, Repr

/-- Result shape of `validateLedgerEntry`. -/
structure ValidationResult where
  isValid : Bool
  error : Option String
deriving DecidableEq, Repr

/-- Model of `validateLedgerEntry` (ledger.ts:79-105). The `typeof entry.amount !==
'number'` half of the amount check is vacuous here because every `JsNum` is a
number (as it is for any runtime value of the declared TypeScript type). -/
def validateLedgerEntry (entry : LedgerEntry) : ValidationResult :=
  if entry.user_id == "" then
    { isValid := false, error := some "User ID is required" }
  else if JsNum.eqb entry.amount (JsNum.num 0) then
    { isValid := false, error := some "Amount must be a non-zero number" }
  else if entry.currency != "XOF" then
    { isValid := false, error := some "Only XOF currency is supported" }
  else if !(["payment", "payout", "fee", "refund", "adjustment"].contains entry.type) then
    { isValid := false, error := some "Invalid entry type" }
  else if entry.description == "" || (strTrim entry.description).length == 0 then
    { isValid := false, error := some "Description is required" }
  else if !(JsNum.eqb entry.balance_after (JsNum.add entry.balance_before entry.amount)) then
    { isValid := false, error := some "Balance calculation mismatch" }
  else
    { isValid := true, error := none }

/-- Model of `updateBalance` (ledger.ts:110-182). Runs inside a Firestore transaction
whose only write is the final `set`, so a thrown error leaves the state
untouched. The `currency` parameter is accepted and ignored, as in the
source (a fresh balance is always created with currency "XOF"). -/
def updateBalance (userId : String) (amount : JsNum) (type : String)
    (currency : String) (now : Nat) (s : St) : Except LedgerError Balance × St :=
  let currentBalance : Balance :=
    match s.balances.lookup userId with
    | some b => b
    | none =>
        { user_id := userId
          available_balance := JsNum.num 0
          pending_balance := JsNum.num 0
          total_balance := JsNum.num 0
          currency := "XOF"
          last_updated := now
          last_transaction_id := none }
  let newPendingBalance := currentBalance.pending_balance
  let result : Except LedgerError JsNum :=
    if type == "payment" then
      .ok (JsNum.add currentBalance.available_balance amount)
    else if type == "payout" then
      if JsNum.lt currentBalance.available_balance amount then
        .error (.insufficientBalance "payout")
      else
        .ok (JsNum.sub currentBalance.available_balance amount)
    else if type == "fee" then
      if JsNum.lt currentBalance.available_balance amount then
        .error (.insufficientBalance "fee")
      else
        .ok (JsNum.sub currentBalance.available_balance amount)
    else if type == "refund" then
      .ok (JsNum.add currentBalance.available_balance amount)
    else if type == "adjustment" then
      .ok (JsNum.add currentBalance.available_balance amount)
    else
      .error (.unknownEntryType type)
  match result with
  | .error e => (.error e, s)
  | .ok newAvailableBalance =>
      let updatedBalance : Balance :=
        { currentBalance with
          available_balance := newAvailableBalance
          pending_balance := newPendingBalance
          total_balance := JsNum.add newAvailableBalance newPendingBalance
          last_updated := now }
      (.ok updatedBalance, { s with balances := setDoc userId updatedBalance s.balances })

/-- The draft handed to `createLedgerEntry`
(`Omit<LedgerEntry, 'id' | 'created_at'>`). -/
structure LedgerDraft where
  user_id : String
  transaction_id : Option String
  type : String
  amount : JsNum
  currency : String
  balance_before : JsNum
  balance_after : JsNum
  description : String
  created_by : String
  status : String
deriving DecidableEq, Repr

/-- The full entry assembled by `createLedgerEntry` from a draft
(`{ ...entry, id: ledgerId, created_at: serverTimestamp }`). -/
def entryOfDraft (entry : LedgerDraft) (ledgerId : String) (now : Nat) : LedgerEntry :=
  { id := ledgerId
    user_id := entry.user_id
    transaction_id := entry.transaction_id
    type := entry.type
    amount := entry.amount
    currency := entry.currency
    balance_before := entry.balance_before
    balance_after := entry.balance_after
    description := entry.description
    created_at := now
    created_by := entry.created_by
    status := entry.status }

/-- Model of `createLedgerEntry` (ledger.ts:49-74): validate, then persist the entry,
then update the balance. The entry is written to the `ledger` collection
before `updateBalance` runs, so a balance failure leaves the already-written
entry in place. -/
def createLedgerEntry (entry : LedgerDraft) (ledgerId : String) (now : Nat)
    (s : St) : Except LedgerError LedgerEntry × St :=
  let ledgerEntry := entryOfDraft entry ledgerId now
  let validation := validateLedgerEntry ledgerEntry
  if !validation.isValid then
    (.error (.invalidEntry (validation.error.getD "")), s)
  else
    let s1 : St := { s with ledger := ledgerEntry :: s.ledger }
    match updateBalance entry.user_id entry.amount entry.type entry.currency now s1 with
    | (.ok _, s2) => (.ok ledgerEntry, s2)
    | (.error e, s2) => (.error e, s2)

/-- Model of `getUserBalance` (ledger.ts:187-195). -/
def getUserBalance (userId : String) (s : St) : Option Balance :=
  s.balances.lookup userId

/-- Model of `getUserLedgerEntries` (ledger.ts:200-219): the user's entries ordered
newest-first (the representation order), truncated to `limit`. The
`startAfter` pagination cursor is not modelled; no caller relevant to the
claims passes it. -/
def getUserLedgerEntries (userId : String) (limit : Nat) (s : St) : List LedgerEntry :=
  (s.ledger.filter (fun e => e.user_id == userId)).take limit

/-- Model of `shouldCreateLedgerEntryForStatusChange` (ledger.ts:286-302). The
`transaction?.amount` truthiness test is JavaScript truthiness of the amount
(0 and NaN are falsy). -/
def shouldCreateLedgerEntryForStatusChange (previousStatus newStatus : String)
    (transaction : TransactionRec) : Bool :=
  (previousStatus == "pending" && newStatus == "completed" && JsNum.truthy transaction.amount)
  || (previousStatus == "pending" && newStatus == "failed" && JsNum.truthy transaction.amount)

/-- Model of `createLedgerEntryForStatusChange` (ledger.ts:307-362). Re-reads the
transaction (returning silently when it is gone), reads the cached balance,
and appends a `payment` entry on pending -> completed or a zero-amount
`adjustment` entry on pending -> failed. Any throw from `createLedgerEntry`
propagates. -/
def createLedgerEntryForStatusChange (transactionId previousStatus newStatus
    userId : String) (reason : Option String) (ledgerId : String) (now : Nat)
    (s : St) : Except LedgerError Unit × St :=
  match s.transactions.lookup transactionId with
  | none => (.ok (), s)
  | some transaction =>
      let userBalance := getUserBalance transaction.user_id s
      let availBefore := jsOrZero (userBalance.map (fun b => b.available_balance))
      if newStatus == "completed" && previousStatus == "pending" then
        match createLedgerEntry
            { user_id := transaction.user_id
              transaction_id := some transactionId
              type := "payment"
              amount := transaction.amount
              currency := transaction.currency
              balance_before := availBefore
              balance_after := JsNum.add availBefore transaction.amount
              description := "Payment completed for transaction " ++ transactionId
              created_by := "system"
              status := "completed" } ledgerId now s with
        | (.ok _, s') => (.ok (), s')
        | (.error e, s') => (.error e, s')
      else if newStatus == "failed" && previousStatus == "pending" then
        match createLedgerEntry
            { user_id := transaction.user_id
              transaction_id := some transactionId
              type := "adjustment"
              amount := JsNum.num 0
              currency := transaction.currency
              balance_before := availBefore
              balance_after := availBefore
              description := "Payment failed for transaction " ++ transactionId
              created_by := "system"
              status := "failed" } ledgerId now s with
        | (.ok _, s') => (.ok (), s')
        | (.error e, s') => (.error e, s')
      else (.ok (), s)

/-- Model of `updateTransactionStatus` (ledger.ts:236-281): look the transaction up
(TransactionNotFound when missing), overwrite its `status`, append a
status-history document, and then, when
`shouldCreateLedgerEntryForStatusChange` says so, create the ledger entry.
The status and history writes commit before the ledger step, so an error
thrown there leaves them in place. No transition validation is performed. -/
def updateTransactionStatus (transactionId newStatus userId : String)
    (reason : Option String) (statusId ledgerId : String) (now : Nat)
    (s : St) : Except LedgerError TransactionStatus × St :=
  match s.transactions.lookup transactionId with
  | none => (.error (.transactionNotFound transactionId), s)
  | some transaction =>
      let previousStatus := if transaction.status == "" then "unknown" else transaction.status
      let statusUpdate : TransactionStatus :=
        { id := statusId
          status := newStatus
          previous_status := some previousStatus
          updated_at := now
          updated_by := userId
          reason := reason }
      let updatedTransaction := { transaction with status := newStatus, updated_at := now }
      let s1 : St :=
        { s with transactions := setDoc transactionId updatedTransaction s.transactions }
      let s2 : St := { s1 with status_history := statusUpdate :: s1.status_history }
      if shouldCreateLedgerEntryForStatusChange previousStatus newStatus transaction then
        match createLedgerEntryForStatusChange transactionId previousStatus newStatus
            userId reason ledgerId now s2 with
        | (.ok _, s3) => (.ok statusUpdate, s3)
        | (.error e, s3) => (.error e, s3)
      else (.ok statusUpdate, s2)

/-- Result shape of `reconcileLedger`. -/
structure ReconcileResult where
  expectedBalance : JsNum
  actualBalance : JsNum
  difference : JsNum
  entries : List LedgerEntry
deriving DecidableEq, Repr

/-- The fold body of `reconcileLedger`'s reduce: the §4.2 sign rules. -/
def reconcileStep (total : JsNum) (entry : LedgerEntry) : JsNum :=
  if entry.type == "payment" || entry.type == "refund" || entry.type == "adjustment" then
    JsNum.add total entry.amount
  else if entry.type == "payout" || entry.type == "fee" then
    JsNum.sub total entry.amount
  else total

/-- Model of `reconcileLedger` (ledger.ts:367-405): reads the user's entries through
`getUserLedgerEntries(userId, 1000)`, folds the completed ones under the sign
rules, compares to the cached available balance (`|| 0` when missing) and
returns the difference. It performs no write: the input state is returned
unchanged. -/
def reconcileLedger (userId : String) (s : St) : ReconcileResult × St :=
  let entries := getUserLedgerEntries userId 1000 s
  let expectedBalance :=
    (entries.filter (fun e => e.status == "completed")).foldl reconcileStep (JsNum.num 0)
  let actualBalanceDoc := getUserBalance userId s
  let actualBalance := jsOrZero (actualBalanceDoc.map (fun b => b.available_balance))
  let difference := JsNum.sub expectedBalance actualBalance
  ({ expectedBalance := expectedBalance
     actualBalance := actualBalance
     difference := difference
     entries := entries }, s)

/-- Modelled from the spec (§4.5, claim C7 wording): the sum of the amounts of
ALL completed ledger entries of the account under the §4.2 sign rules, with no
1000-entry truncation. Written only to be compared with `reconcileLedger`. -/
def specReconcileExpected (userId : String) (s : St) : JsNum :=
  ((s.ledger.filter (fun e => e.user_id == userId)).filter
      (fun e => e.status == "completed")).foldl reconcileStep (JsNum.num 0)

/-- Outcome of the POST /webhook/payment route. -/
inductive WebhookOutcome where
  | processed (transaction_id : String) (finalStatus : String)
  | notFound
  | processingError (e : LedgerError)
deriving DecidableEq, Repr

/-- Status normalization of the webhook route (routes.ts:479-489):
`(status || '').toLowerCase()`, then the two vocabulary lists, defaulting to
`pending`. -/
def normalizeWebhookStatus (status : String) : String :=
  let normalizedStatus := strLower status
  if ["success", "completed", "paid"].contains normalizedStatus then "completed"
  else if ["failed", "cancelled", "expired"].contains normalizedStatus then "failed"
  else "pending"

/-- The POST /webhook/payment handler from the normalized
`(transaction_id, status)` pair onward (routes.ts:479-562): normalize, look
the transaction up (404 when missing), run `updateTransactionStatus`, and log
the webhook (processed on success; the catch block logs it unprocessed and
answers 500). Provider payload parsing upstream of this point only extracts
these two fields. -/
def handleWebhookPayment (transaction_id status provider : String)
    (statusId ledgerId webhookId : String) (now : Nat) (s : St) :
    WebhookOutcome × St :=
  let finalStatus := normalizeWebhookStatus status
  match s.transactions.lookup transaction_id with
  | none => (.notFound, s)
  | some _ =>
      match updateTransactionStatus transaction_id finalStatus "system"
          (some ("Status updated via " ++ provider ++ " webhook"))
          statusId ledgerId now s with
      | (.ok _, s1) =>
          (.processed transaction_id finalStatus,
           { s1 with webhooks :=
               { id := webhookId, transaction_id := transaction_id, provider := provider,
                 normalized_status := finalStatus, processed := true } :: s1.webhooks })
      | (.error e, s1) =>
          (.processingError e,
           { s1 with webhooks :=
               { id := webhookId, transaction_id := transaction_id, provider := provider,
                 normalized_status := finalStatus, processed := false } :: s1.webhooks })

/-- A `webhook_retries` document (interface `FailedWebhook`,
phone-validation.ts:383-391). `scheduleRetry` writes no `status` field; it is
only added (as `permanently_failed`) when the budget is exhausted, hence the
`Option`. -/
structure FailedWebhook where
  id : String
  provider : String
  payload : String
  error : String
  retryCount : Nat
  nextRetryAt : Nat
  createdAt : Nat
  status : Option String
deriving DecidableEq, Repr

/-- Constant `RETRY_CONFIG.maxRetries` (phone-validation.ts:377-381). -/
def RETRY_maxRetries : Nat := 5

/-- Constant `RETRY_CONFIG.retryDelays`, in milliseconds: 1s, 5s, 15s, 1m, 5m. -/
def RETRY_retryDelays : List Nat := [1000, 5000, 15000, 60000, 300000]

/-- Constant `RETRY_CONFIG.backoffMultiplier`. -/
def RETRY_backoffMultiplier : Nat := 2

/-- Model of `WebhookRetryManager.scheduleRetry` (phone-validation.ts:411-432): the
fresh retry record, with `retryCount = 0` and
`nextRetryAt = now + retryDelays[0]`. -/
def scheduleRetry (webhookId provider payload error : String) (now : Nat) :
    FailedWebhook :=
  { id := webhookId
    provider := provider
    payload := payload
    error := error
    retryCount := 0
    nextRetryAt := now + RETRY_retryDelays.getD 0 0
    createdAt := now
    status := none }

/-- The delay picked by `handleRetryFailure` for the next attempt:
`retryDelays[newRetryCount] || last * multiplier ^ (newRetryCount - len + 1)`
(phone-validation.ts:559-561). The fallback (reached in JavaScript only when
the indexing is out of bounds, which `maxRetries = 5` makes unreachable) is
kept for fidelity; `0` is falsy in JavaScript, hence the extra test. -/
def retryDelayFor (newRetryCount : Nat) : Nat :=
  let fallback := (RETRY_retryDelays.getD (RETRY_retryDelays.length - 1) 0) *
    RETRY_backoffMultiplier ^ (newRetryCount - RETRY_retryDelays.length + 1)
  match RETRY_retryDelays.get? newRetryCount with
  | some d => if d == 0 then fallback else d
  | none => fallback

/-- Model of `WebhookRetryManager.handleRetryFailure` (phone-validation.ts:543-574):
increment the count; at `maxRetries` mark the record `permanently_failed`
(an update, not a delete), otherwise reschedule with the next backoff
delay. -/
def handleRetryFailure (retryData : FailedWebhook) (error : String) (now : Nat) :
    FailedWebhook :=
  let newRetryCount := retryData.retryCount + 1
  if RETRY_maxRetries ≤ newRetryCount then
    { retryData with retryCount := newRetryCount, status := some "permanently_failed" }
  else
    { retryData with retryCount := newRetryCount,
                     nextRetryAt := now + retryDelayFor newRetryCount,
                     error := error }

/-- The selection predicate of `WebhookRetryManager.processRetries`
(phone-validation.ts:464-466): `nextRetryAt <= now` and
`retryCount < maxRetries`. -/
def isDueForRetry (now : Nat) (r : FailedWebhook) : Bool :=
  decide (r.nextRetryAt ≤ now) && decide (r.retryCount < RETRY_maxRetries)

/-- One sweep of `WebhookRetryManager.processRetries`
(phone-validation.ts:460-507) over the `webhook_retries` collection.
`outcome` abstracts `processWebhook`'s success (the source simulates it with
`Math.random()`): a due record is deleted when processing succeeds and passed
to `handleRetryFailure` otherwise; records not due are untouched. -/
def processRetriesSweep (outcome : FailedWebhook → Bool) (now : Nat)
    (rs : List FailedWebhook) : List FailedWebhook :=
  rs.foldr
    (fun r acc =>
      if isDueForRetry now r then
        if outcome r then acc
        else handleRetryFailure r "Processing failed" now :: acc
      else r :: acc)
    []

/-- Model of `WebhookRetryManager.cleanupOldRetries` (phone-validation.ts:609-628):
batch-delete every record with `createdAt < now - daysOld` days, with no
status filter. -/
def cleanupOldRetries (daysOld : Nat) (now : Nat) (rs : List FailedWebhook) :
    List FailedWebhook :=
  let cutoffDate := now - daysOld * 24 * 60 * 60 * 1000
  rs.filter (fun r => !(decide (r.createdAt < cutoffDate)))

/-- A provider configuration as read by the middleware (`WAVE_CONFIG`,
`ORANGE_MONEY_CONFIG`): the environment name and the webhook secret, with a
missing secret modelled by the falsy empty string. -/
structure ProviderConfig where
  environment : String
  webhookSecret : String
deriving DecidableEq, Repr

/-- The process environment the middleware consults. -/
structure MiddlewareEnv where
  nodeEnv : String
  functionsEmulator : Bool
  wave : ProviderConfig
  orange_money : ProviderConfig
deriving DecidableEq, Repr

/-- The parts of an incoming webhook request that
`webhookSignatureVerification` reads: the three signature headers, the
`x-provider` header, the provider-detection fields, and the serialized body
(`JSON.stringify(req.body)`). -/
structure WebhookRequest where
  xWaveSignature : Option String
  xOrangeSignature : Option String
  signatureHeader : Option String
  xProvider : Option String
  body_has_wave_id : Bool
  body_has_order_id : Bool
  query_has_order_id : Bool
  payload : String
deriving DecidableEq, Repr

/-- Outcome of an Express middleware: pass the request on, or answer with an
HTTP status and error code. -/
inductive MiddlewareResult where
  | next
  | reject (httpStatus : Nat) (code : String)
deriving DecidableEq, Repr

/-- JavaScript falsiness of an optionally-present string (absent or empty). -/
def strFalsy : Option String → Bool
  | none => true
  | some v => v == ""

/-- JavaScript `a || b` on optionally-present strings. -/
def jsStrOr (a b : Option String) : Option String :=
  if strFalsy a then b else a

/-- Model of `detectProvider` (middleware.ts:466-474): field/header presence sniffing. -/
def detectProvider (req : WebhookRequest) : String :=
  if req.body_has_wave_id || !(strFalsy req.xWaveSignature) then "wave"
  else if req.body_has_order_id || req.query_has_order_id
      || !(strFalsy req.xOrangeSignature) then "orange_money"
  else "unknown"

/-- Model of `verifyWaveSignature` (middleware.ts:477-495): always true in the sandbox
environment; false without a configured secret; otherwise compare the supplied
signature with the HMAC hex digest of the payload under the secret (`hmac`
abstracts `crypto.createHmac('sha256', secret).update(payload).digest('hex')`,
and `timingSafeEqual` of the two digests is modelled as string equality). -/
def verifyWaveSignature (hmac : String → String → String) (cfg : ProviderConfig)
    (payload signature : String) : Bool :=
  if cfg.environment == "sandbox" then true
  else if cfg.webhookSecret == "" then false
  else signature == hmac cfg.webhookSecret payload

/-- Model of `verifyOrangeMoneySignature` (middleware.ts:498-516): same shape as the
Wave check, against the Orange Money configuration. -/
def verifyOrangeMoneySignature (hmac : String → String → String)
    (cfg : ProviderConfig) (payload signature : String) : Bool :=
  if cfg.environment == "sandbox" then true
  else if cfg.webhookSecret == "" then false
  else signature == hmac cfg.webhookSecret payload

/-- Model of `webhookSignatureVerification` (middleware.ts:416-463): pick the first
truthy signature header; with no signature, let the request through in
development or under the Functions emulator and reject with MISSING_SIGNATURE
otherwise; with a signature, dispatch on the provider (the `x-provider` header
or `detectProvider`) and reject with INVALID_SIGNATURE unless the provider's
verifier accepts (an unknown provider never verifies). -/
def webhookSignatureVerification (hmac : String → String → String)
    (env : MiddlewareEnv) (req : WebhookRequest) : MiddlewareResult :=
  let signature := jsStrOr (jsStrOr req.xWaveSignature req.xOrangeSignature)
    req.signatureHeader
  let provider := if strFalsy req.xProvider then detectProvider req
    else req.xProvider.getD ""
  if strFalsy signature then
    if env.nodeEnv == "development" || env.functionsEmulator then .next
    else .reject 401 "MISSING_SIGNATURE"
  else
    let payload := req.payload
    let sigVal := signature.getD ""
    let isValid :=
      if provider == "wave" then verifyWaveSignature hmac env.wave payload sigVal
      else if provider == "orange_money" then
        verifyOrangeMoneySignature hmac env.orange_money payload sigVal
      else false
    if !isValid then .reject 401 "INVALID_SIGNATURE"
    else .next


/-! ## Fixtures: concrete states shared by counterexamples and witnesses -/

/-- A cached balance of 1000 XOF for user "u". -/
def sampleBalance : Balance :=
  { user_id := "u", available_balance := JsNum.num 1000, pending_balance := JsNum.num 0,
    total_balance := JsNum.num 1000, currency := "XOF", last_updated := 0,
    last_transaction_id := none }

/-- A store holding only that balance. -/
def sampleSt : St :=
  { ledger := [], balances := [("u", sampleBalance)], transactions := [],
    status_history := [], webhooks := [] }

/-- A validation-passing payout draft of 1500 XOF against user "u". -/
def samplePayoutDraft : LedgerDraft :=
  { user_id := "u", transaction_id := none, type := "payout", amount := JsNum.num 1500,
    currency := "XOF", balance_before := JsNum.num 1000, balance_after := JsNum.num 2500,
    description := "withdrawal", created_by := "system", status := "completed" }

/-! ## C1 -/

/-- C1, counterexample. The claim says a payout entry exceeding the available
balance fails with the insufficient-balance error and "no ledger entry is
persisted". On the code, with user "u" holding 1000 XOF and a payout entry of
1500 XOF appended through `createLedgerEntry`, the call does fail with the
insufficient-balance error and the cached balance is untouched — but the
entry was persisted to the ledger before the balance check ran, and stays. -/
theorem C1_counterexample :
    (createLedgerEntry samplePayoutDraft "L1" 5 sampleSt).1 =
      Except.error (LedgerError.insufficientBalance "payout") ∧
    (createLedgerEntry samplePayoutDraft "L1" 5 sampleSt).2.balances = sampleSt.balances ∧
    (createLedgerEntry samplePayoutDraft "L1" 5 sampleSt).2.ledger =
      [entryOfDraft samplePayoutDraft "L1" 5] := by
  refine ⟨rfl, by decide, by decide⟩

/-- C1, amended: for every validation-passing payout or fee draft whose amount
exceeds the account's current available balance (zero for an account with no
balance record), the append operation fails with the insufficient-balance
error and the cached balance — indeed everything except the ledger — is
exactly as before the call; the ledger, however, has gained the entry, which
was persisted before the balance check. -/
theorem C1_insufficient_payout_fee_persists_entry (d : LedgerDraft)
    (ledgerId : String) (now : Nat) (s : St)
    (htype : d.type = "payout" ∨ d.type = "fee")
    (hvalid : (validateLedgerEntry (entryOfDraft d ledgerId now)).isValid = true)
    (hinsuf : JsNum.lt
      (match getUserBalance d.user_id s with
       | some b => b.available_balance
       | none => JsNum.num 0) d.amount = true) :
    createLedgerEntry d ledgerId now s =
      (Except.error (LedgerError.insufficientBalance d.type),
       { s with ledger := entryOfDraft d ledgerId now :: s.ledger }) := by
  have key : updateBalance d.user_id d.amount d.type d.currency now
      { s with ledger := entryOfDraft d ledgerId now :: s.ledger } =
      (Except.error (LedgerError.insufficientBalance d.type),
       { s with ledger := entryOfDraft d ledgerId now :: s.ledger }) := by
    unfold getUserBalance at hinsuf
    rcases htype with ht | ht <;>
      simp only [updateBalance, ht] <;>
      cases hlk : s.balances.lookup d.user_id <;>
      simp_all
  simp only [createLedgerEntry, hvalid, Bool.not_true]
  simp only [Bool.false_eq_true, if_false, key]

/-- C1 witness: the amended theorem applied to the 1500-XOF payout draft
against the 1000-XOF account. -/
theorem C1_witness :
    createLedgerEntry samplePayoutDraft "L1" 5 sampleSt =
      (Except.error (LedgerError.insufficientBalance "payout"),
       { sampleSt with ledger := entryOfDraft samplePayoutDraft "L1" 5 :: sampleSt.ledger }) :=
  C1_insufficient_payout_fee_persists_entry samplePayoutDraft "L1" 5 sampleSt
    (Or.inl rfl) (by decide) (by decide)

/-! ## C2 -/

/-- A completed (terminal) transaction of 1000 XOF for user "u". -/
def sampleCompletedTx : TransactionRec :=
  { user_id := "u", amount := JsNum.num 1000, currency := "XOF", status := "completed",
    provider := "wave", phone := "p", updated_at := 0 }

/-- A store holding only that transaction. -/
def terminalSt : St :=
  { ledger := [], balances := [], transactions := [("t1", sampleCompletedTx)],
    status_history := [], webhooks := [] }

/-- C2, counterexample. The claim says any status-transition call on a
transaction whose current status is terminal is rejected with an
InvalidTransition error and produces no status-history record and no status
update. On the code, transitioning the already-completed transaction "t1" to
"failed" succeeds, overwrites the status, and appends a history record. -/
theorem C2_counterexample :
    (updateTransactionStatus "t1" "failed" "admin" none "S1" "L1" 7 terminalSt).1 =
      Except.ok
        { id := "S1", status := "failed", previous_status := some "completed",
          updated_at := 7, updated_by := "admin", reason := none } ∧
    (updateTransactionStatus "t1" "failed" "admin" none "S1" "L1" 7 terminalSt).2.status_history.length = 1 ∧
    (updateTransactionStatus "t1" "failed" "admin" none "S1" "L1" 7 terminalSt).2.transactions.lookup "t1" =
      some { sampleCompletedTx with status := "failed", updated_at := 7 } := by
  refine ⟨rfl, by decide, by decide⟩

/-- On a transaction whose stored status is terminal, `updateTransactionStatus`
succeeds with any target status: it overwrites the status field and appends a
history record, and — since the ledger-effect rule requires a `pending`
previous status — touches neither the ledger nor the balances. -/
lemma updateTransactionStatus_terminal_eq (s : St)
    (transactionId newStatus userId : String) (reason : Option String)
    (statusId ledgerId : String) (now : Nat) (tx : TransactionRec)
    (hlk : s.transactions.lookup transactionId = some tx)
    (hterm : tx.status = "completed" ∨ tx.status = "failed" ∨ tx.status = "cancelled") :
    updateTransactionStatus transactionId newStatus userId reason statusId ledgerId now s =
      (Except.ok
        { id := statusId, status := newStatus, previous_status := some tx.status,
          updated_at := now, updated_by := userId, reason := reason },
       { s with
         transactions :=
           setDoc transactionId { tx with status := newStatus, updated_at := now } s.transactions,
         status_history :=
           { id := statusId, status := newStatus, previous_status := some tx.status,
             updated_at := now, updated_by := userId, reason := reason } :: s.status_history }) := by
  rcases hterm with h | h | h <;>
    simp [updateTransactionStatus, hlk, shouldCreateLedgerEntryForStatusChange, h]

/-- C2, amended: `updateTransactionStatus` performs no transition validation.
For every transaction whose current status is completed, failed, or cancelled,
a transition call with any target status and any actor succeeds: the
transaction's status field is overwritten and a status-history record is
appended; no ledger entry is produced and the balances are untouched (the
ledger-effect rule only fires from a `pending` previous status). The only
failure mode is an unknown transaction id. -/
theorem C2_terminal_transition_accepted (s : St)
    (transactionId newStatus userId : String) (reason : Option String)
    (statusId ledgerId : String) (now : Nat) (tx : TransactionRec)
    (hlk : s.transactions.lookup transactionId = some tx)
    (hterm : tx.status = "completed" ∨ tx.status = "failed" ∨ tx.status = "cancelled") :
    updateTransactionStatus transactionId newStatus userId reason statusId ledgerId now s =
      (Except.ok
        { id := statusId, status := newStatus, previous_status := some tx.status,
          updated_at := now, updated_by := userId, reason := reason },
       { s with
         transactions :=
           setDoc transactionId { tx with status := newStatus, updated_at := now } s.transactions,
         status_history :=
           { id := statusId, status := newStatus, previous_status := some tx.status,
             updated_at := now, updated_by := userId, reason := reason } :: s.status_history }) :=
  updateTransactionStatus_terminal_eq s transactionId newStatus userId reason statusId
    ledgerId now tx hlk hterm

/-- C2 witness: the amended theorem applied to the completed transaction "t1"
being moved to "failed". -/
theorem C2_witness :
    updateTransactionStatus "t1" "failed" "admin" none "S1" "L1" 7 terminalSt =
      (Except.ok
        { id := "S1", status := "failed", previous_status := some "completed",
          updated_at := 7, updated_by := "admin", reason := none },
       { terminalSt with
         transactions :=
           setDoc "t1" { sampleCompletedTx with status := "failed", updated_at := 7 }
             terminalSt.transactions,
         status_history :=
           [{ id := "S1", status := "failed", previous_status := some "completed",
              updated_at := 7, updated_by := "admin", reason := none }] }) :=
  C2_terminal_transition_accepted terminalSt "t1" "failed" "admin" none "S1" "L1" 7
    sampleCompletedTx (by decide) (Or.inl rfl)

/-! ## C3 -/

/-- A pending transaction of 1000 XOF for user "u". -/
def samplePendingTx : TransactionRec :=
  { sampleCompletedTx with status := "pending" }

/-- A store with the pending transaction "t1" and user "u"'s balance. -/
def pendingSt : St :=
  { ledger := [], balances := [("u", sampleBalance)],
    transactions := [("t1", samplePendingTx)], status_history := [], webhooks := [] }

/-- C3: evaluation of the code at the failing input. For the pending
transaction "t1" of amount 1000, the pending → failed transition does try to
append the zero-amount `adjustment` audit entry the spec describes, but
`validateLedgerEntry` rejects a zero amount, so the transition throws
"Amount must be a non-zero number" and no ledger entry is persisted; and the
pending → cancelled transition completes without error while appending no
ledger entry at all (`shouldCreateLedgerEntryForStatusChange` has no
cancelled case). Both halves contradict the documented rule table, and the
failed half contradicts the code's own stated intent of logging the failure. -/
theorem C3_zero_amount_audit_entry_is_rejected :
    (updateTransactionStatus "t1" "failed" "system" none "S1" "L1" 7 pendingSt).1 =
      Except.error (LedgerError.invalidEntry "Amount must be a non-zero number") ∧
    (updateTransactionStatus "t1" "failed" "system" none "S1" "L1" 7 pendingSt).2.ledger = [] ∧
    (updateTransactionStatus "t1" "cancelled" "system" none "S1" "L1" 7 pendingSt).1 =
      Except.ok
        { id := "S1", status := "cancelled", previous_status := some "pending",
          updated_at := 7, updated_by := "system", reason := none } ∧
    (updateTransactionStatus "t1" "cancelled" "system" none "S1" "L1" 7 pendingSt).2.ledger = [] := by
  refine ⟨rfl, by decide, rfl, by decide⟩

/-! ## C4 -/

/-- The available balance `updateBalance` starts from: the stored
`available_balance`, or zero when the account has no balance record. -/
def currentAvailable (userId : String) (s : St) : JsNum :=
  match getUserBalance userId s with
  | some b => b.available_balance
  | none => JsNum.num 0

/-- The pending balance `updateBalance` starts from, zero for an unseen
account. -/
def currentPending (userId : String) (s : St) : JsNum :=
  match getUserBalance userId s with
  | some b => b.pending_balance
  | none => JsNum.num 0

/-- C4: semantics of the balance aggregator by entry kind. `payment`,
`refund` and `adjustment` (positive or negative) add the amount to the
available balance; `payout` and `fee` subtract it (when the balance check
passes; an excessive amount fails with the insufficient-balance error and
changes nothing — the case claim C1 covers); an unrecognized kind fails with
the invalid-kind error and changes nothing; and for an account with no
balance record the starting available and pending balances are zero, so the
first application applies its delta to a zero-initialized balance. -/
theorem C4_updateBalance_kind_semantics (userId type currency : String)
    (amount : JsNum) (now : Nat) (s : St) :
    (type = "payment" ∨ type = "refund" ∨ type = "adjustment" →
      ∃ b s', updateBalance userId amount type currency now s = (Except.ok b, s') ∧
        b.available_balance = JsNum.add (currentAvailable userId s) amount ∧
        b.pending_balance = currentPending userId s) ∧
    ((type = "payout" ∨ type = "fee") → JsNum.lt (currentAvailable userId s) amount = false →
      ∃ b s', updateBalance userId amount type currency now s = (Except.ok b, s') ∧
        b.available_balance = JsNum.sub (currentAvailable userId s) amount ∧
        b.pending_balance = currentPending userId s) ∧
    ((type = "payout" ∨ type = "fee") → JsNum.lt (currentAvailable userId s) amount = true →
      updateBalance userId amount type currency now s =
        (Except.error (LedgerError.insufficientBalance type), s)) ∧
    (type ≠ "payment" → type ≠ "payout" → type ≠ "fee" → type ≠ "refund" → type ≠ "adjustment" →
      updateBalance userId amount type currency now s =
        (Except.error (LedgerError.unknownEntryType type), s)) ∧
    (getUserBalance userId s = none →
      currentAvailable userId s = JsNum.num 0 ∧ currentPending userId s = JsNum.num 0) := by
  refine ⟨?_, ?_, ?_, ?_, ?_⟩
  · rintro (ht | ht | ht) <;>
      cases hlk : s.balances.lookup userId <;>
      · simp only [updateBalance, currentAvailable, currentPending, getUserBalance, hlk, ht]
        refine ⟨_, _, rfl, rfl, rfl⟩
  · rintro (ht | ht) hlt <;>
      cases hlk : s.balances.lookup userId <;>
      · simp only [currentAvailable, getUserBalance, hlk] at hlt
        simp only [updateBalance, currentAvailable, currentPending, getUserBalance, hlk, ht, hlt]
        refine ⟨_, _, rfl, rfl, rfl⟩
  · rintro (ht | ht) hlt <;>
      cases hlk : s.balances.lookup userId <;>
      · simp only [currentAvailable, getUserBalance, hlk] at hlt
        simp [updateBalance, hlk, ht, hlt]
  · intro h1 h2 h3 h4 h5
    cases hlk : s.balances.lookup userId <;>
      simp [updateBalance, hlk, h1, h2, h3, h4, h5]
  · intro hnone
    simp [currentAvailable, currentPending, hnone]

/-- C4 witness: the kind-semantics theorem applied concretely — a payment of
5 on the 1000-XOF account, a fee of 5, a payout of 5000 (insufficient), a
"bogus" kind, and the zero initialization for the unseen account "v". -/
theorem C4_witness :
    (∃ b s', updateBalance "u" (JsNum.num 5) "payment" "XOF" 3 sampleSt = (Except.ok b, s') ∧
      b.available_balance = JsNum.add (currentAvailable "u" sampleSt) (JsNum.num 5) ∧
      b.pending_balance = currentPending "u" sampleSt) ∧
    (∃ b s', updateBalance "u" (JsNum.num 5) "fee" "XOF" 3 sampleSt = (Except.ok b, s') ∧
      b.available_balance = JsNum.sub (currentAvailable "u" sampleSt) (JsNum.num 5) ∧
      b.pending_balance = currentPending "u" sampleSt) ∧
    (updateBalance "u" (JsNum.num 5000) "payout" "XOF" 3 sampleSt =
      (Except.error (LedgerError.insufficientBalance "payout"), sampleSt)) ∧
    (updateBalance "u" (JsNum.num 5) "bogus" "XOF" 3 sampleSt =
      (Except.error (LedgerError.unknownEntryType "bogus"), sampleSt)) ∧
    (currentAvailable "v" sampleSt = JsNum.num 0 ∧ currentPending "v" sampleSt = JsNum.num 0) := by
  refine ⟨(C4_updateBalance_kind_semantics "u" "payment" "XOF" (JsNum.num 5) 3 sampleSt).1
      (Or.inl rfl),
    (C4_updateBalance_kind_semantics "u" "fee" "XOF" (JsNum.num 5) 3 sampleSt).2.1
      (Or.inr rfl) (by decide),
    (C4_updateBalance_kind_semantics "u" "payout" "XOF" (JsNum.num 5000) 3 sampleSt).2.2.1
      (Or.inl rfl) (by decide),
    (C4_updateBalance_kind_semantics "u" "bogus" "XOF" (JsNum.num 5) 3 sampleSt).2.2.2.1
      (by decide) (by decide) (by decide) (by decide) (by decide),
    (C4_updateBalance_kind_semantics "v" "payment" "XOF" (JsNum.num 5) 3 sampleSt).2.2.2.2
      (by decide)⟩

/-! ## C5 -/

/-- The balance writer `updateBalance` never touches the ledger collection. -/
lemma updateBalance_ledger (userId : String) (amount : JsNum) (type currency : String)
    (now : Nat) (s : St) :
    ((updateBalance userId amount type currency now s).2).ledger = s.ledger := by
  simp only [updateBalance]
  split <;> rfl

/-- A draft whose amount is positive infinity, with a consistent
(infinite) balance snapshot. -/
def infiniteAmountDraft : LedgerDraft :=
  { user_id := "u", transaction_id := none, type := "payment", amount := JsNum.inf,
    currency := "XOF", balance_before := JsNum.num 0, balance_after := JsNum.inf,
    description := "credit", created_by := "system", status := "completed" }

/-- C5, counterexample. The claim says the append fails with a validation
error whenever the amount is "not a finite number". But the validator only
tests `typeof amount !== 'number' || amount === 0`, and `Infinity` is a
non-zero number; with a consistently infinite `balance_after` the balance
equation also holds (`0 + Infinity === Infinity`), so this non-finite draft
passes validation, is persisted, and the append succeeds. -/
theorem C5_counterexample :
    (validateLedgerEntry (entryOfDraft infiniteAmountDraft "L1" 0)).isValid = true ∧
    (createLedgerEntry infiniteAmountDraft "L1" 0 sampleSt).2.ledger =
      [entryOfDraft infiniteAmountDraft "L1" 0] ∧
    (∃ e, (createLedgerEntry infiniteAmountDraft "L1" 0 sampleSt).1 = Except.ok e) := by
  refine ⟨by decide, by decide, ⟨_, rfl⟩⟩

/-- C5, amended: for every draft of one of the five entry kinds, validation
fails — and then the append fails with the validation error and persists
nothing — if and only if the user id is empty, the amount is (strictly) equal
to zero, the currency is not XOF, the description is empty or blank, or
`balance_after` is not JavaScript-equal to `balance_before + amount`.
Finiteness of the amount is NOT checked (a NaN amount is caught only
indirectly, because `NaN === x` is always false in the balance equation,
while an infinite amount with a consistent snapshot passes). Every draft
satisfying all the conditions has its entry persisted to the ledger — even
when the subsequent balance update throws. -/
theorem C5_validation_characterization (d : LedgerDraft) (ledgerId : String)
    (now : Nat) (s : St)
    (htype : d.type = "payment" ∨ d.type = "payout" ∨ d.type = "fee" ∨
      d.type = "refund" ∨ d.type = "adjustment") :
    ((validateLedgerEntry (entryOfDraft d ledgerId now)).isValid = false ↔
      (d.user_id = "" ∨ JsNum.eqb d.amount (JsNum.num 0) = true ∨ d.currency ≠ "XOF" ∨
       d.description = "" ∨ (strTrim d.description).length = 0 ∨
       JsNum.eqb d.balance_after (JsNum.add d.balance_before d.amount) = false)) ∧
    ((validateLedgerEntry (entryOfDraft d ledgerId now)).isValid = false →
      ∃ msg, createLedgerEntry d ledgerId now s = (Except.error (LedgerError.invalidEntry msg), s)) ∧
    ((validateLedgerEntry (entryOfDraft d ledgerId now)).isValid = true →
      entryOfDraft d ledgerId now ∈ (createLedgerEntry d ledgerId now s).2.ledger) := by
  have hcontains : (["payment", "payout", "fee", "refund", "adjustment"].contains d.type) = true := by
    rcases htype with h | h | h | h | h <;> simp [h]
  refine ⟨?_, ?_, ?_⟩
  · simp only [validateLedgerEntry, entryOfDraft]
    split_ifs with h1 h2 h3 h4 h5 h6 <;> simp_all <;> tauto
  · intro hinv
    refine ⟨(validateLedgerEntry (entryOfDraft d ledgerId now)).error.getD "", ?_⟩
    simp [createLedgerEntry, hinv]
  · intro hv
    simp only [createLedgerEntry, hv, Bool.not_true, Bool.false_eq_true, if_false]
    have hl := updateBalance_ledger d.user_id d.amount d.type d.currency now
      { s with ledger := entryOfDraft d ledgerId now :: s.ledger }
    rcases hub : updateBalance d.user_id d.amount d.type d.currency now
      { s with ledger := entryOfDraft d ledgerId now :: s.ledger } with ⟨r, s2⟩
    rw [hub] at hl
    cases r <;> simp_all

/-- A zero-amount payment draft (fails validation). -/
def zeroAmountDraft : LedgerDraft :=
  { samplePayoutDraft with
    type := "payment"
    amount := JsNum.num 0
    balance_before := JsNum.num 0
    balance_after := JsNum.num 0 }

/-- C5 witness: the characterization applied to the zero-amount draft — it is
invalid and the append fails with a validation error, persisting nothing. -/
theorem C5_witness :
    (validateLedgerEntry (entryOfDraft zeroAmountDraft "L1" 0)).isValid = false ∧
    ∃ msg, createLedgerEntry zeroAmountDraft "L1" 0 sampleSt =
      (Except.error (LedgerError.invalidEntry msg), sampleSt) :=
  ⟨by decide,
   (C5_validation_characterization zeroAmountDraft "L1" 0 sampleSt (Or.inl rfl)).2.1 (by decide)⟩

/-! ## C6 -/

/-- C6: idempotency of webhook redelivery on a terminal transaction. For every
transaction already in a terminal state (completed, failed or cancelled),
processing a webhook delivery — in particular a redelivery of the very event
that completed it — produces no additional ledger entry and no balance change,
and the handler answers success: the ledger and balances are exactly as
before, so the ledger entry count for the transaction (1 after a completed
payment) is unchanged. -/
theorem C6_terminal_webhook_is_noop_on_ledger (s : St)
    (txId status provider statusId ledgerId webhookId : String) (now : Nat)
    (tx : TransactionRec)
    (hlk : s.transactions.lookup txId = some tx)
    (hterm : tx.status = "completed" ∨ tx.status = "failed" ∨ tx.status = "cancelled") :
    (handleWebhookPayment txId status provider statusId ledgerId webhookId now s).2.ledger
      = s.ledger ∧
    (handleWebhookPayment txId status provider statusId ledgerId webhookId now s).2.balances
      = s.balances ∧
    ((handleWebhookPayment txId status provider statusId ledgerId webhookId now s).2.ledger.filter
        (fun e => e.transaction_id == some txId)).length
      = (s.ledger.filter (fun e => e.transaction_id == some txId)).length ∧
    (handleWebhookPayment txId status provider statusId ledgerId webhookId now s).1
      = WebhookOutcome.processed txId (normalizeWebhookStatus status) := by
  have h := updateTransactionStatus_terminal_eq s txId (normalizeWebhookStatus status)
    "system" (some ("Status updated via " ++ provider ++ " webhook"))
    statusId ledgerId now tx hlk hterm
  simp only [handleWebhookPayment, hlk, h]
  exact ⟨trivial, trivial, trivial, trivial⟩

/-- C6 witness: a "success" redelivery for the already-completed transaction
"t1" leaves ledger and balances untouched and reports success. -/
theorem C6_witness :
    (handleWebhookPayment "t1" "success" "wave" "S1" "L1" "W1" 9 terminalSt).2.ledger
      = terminalSt.ledger ∧
    (handleWebhookPayment "t1" "success" "wave" "S1" "L1" "W1" 9 terminalSt).2.balances
      = terminalSt.balances ∧
    ((handleWebhookPayment "t1" "success" "wave" "S1" "L1" "W1" 9 terminalSt).2.ledger.filter
        (fun e => e.transaction_id == some "t1")).length
      = (terminalSt.ledger.filter (fun e => e.transaction_id == some "t1")).length ∧
    (handleWebhookPayment "t1" "success" "wave" "S1" "L1" "W1" 9 terminalSt).1
      = WebhookOutcome.processed "t1" (normalizeWebhookStatus "success") :=
  C6_terminal_webhook_is_noop_on_ledger terminalSt "t1" "success" "wave" "S1" "L1" "W1" 9
    sampleCompletedTx (by decide) (Or.inl rfl)

/-! ## C7 -/

/-- A completed 1-XOF payment entry for user "u", used 1001 times over. -/
def bigLedgerEntry : LedgerEntry :=
  { id := "L", user_id := "u", transaction_id := none, type := "payment",
    amount := JsNum.num 1, currency := "XOF", balance_before := JsNum.num 0,
    balance_after := JsNum.num 1, description := "d", created_at := 0,
    created_by := "system", status := "completed" }

/-- The cached balance matching all 1001 entries. -/
def bigBalance : Balance :=
  { sampleBalance with available_balance := JsNum.num 1001, total_balance := JsNum.num 1001 }

/-- A store with 1001 completed 1-XOF payment entries for "u" and the matching
cached balance of 1001. -/
def bigSt : St :=
  { ledger := List.replicate 1001 bigLedgerEntry, balances := [("u", bigBalance)],
    transactions := [], status_history := [], webhooks := [] }

/-- The entry `bigLedgerEntry` survives the user filter. -/
lemma replicate_filter_user (n : Nat) :
    (List.replicate n bigLedgerEntry).filter (fun e => e.user_id == "u")
      = List.replicate n bigLedgerEntry := by
  rw [List.filter_replicate, if_pos]
  decide

/-- The entry `bigLedgerEntry` survives the completed-status filter. -/
lemma replicate_filter_completed (n : Nat) :
    (List.replicate n bigLedgerEntry).filter (fun e => e.status == "completed")
      = List.replicate n bigLedgerEntry := by
  rw [List.filter_replicate, if_pos]
  decide

/-- Folding the sign rules over n copies of the 1-XOF payment adds n. -/
lemma foldl_reconcileStep_replicate (n : Nat) (k : Int) :
    (List.replicate n bigLedgerEntry).foldl reconcileStep (JsNum.num k) = JsNum.num (k + n) := by
  induction n generalizing k with
  | zero => simp
  | succ m ih =>
      rw [List.replicate_succ, List.foldl_cons]
      have hstep : reconcileStep (JsNum.num k) bigLedgerEntry = JsNum.num (k + 1) := rfl
      rw [hstep, ih]
      congr 1
      push_cast
      ring

/-- C7, counterexample. The claim says reconciliation sums ALL completed
ledger entries of the account. But `reconcileLedger` reads the entries through
`getUserLedgerEntries(userId, 1000)`, which truncates to the 1000 most recent:
on an account with 1001 completed 1-XOF payments and a perfectly matching
cached balance of 1001, the code reports expected 1000, actual 1001 and
difference −1, while the sum over all completed entries is 1001 and the
claim-predicted difference is 0. -/
theorem C7_counterexample :
    (reconcileLedger "u" bigSt).1.expectedBalance = JsNum.num 1000 ∧
    (reconcileLedger "u" bigSt).1.actualBalance = JsNum.num 1001 ∧
    (reconcileLedger "u" bigSt).1.difference = JsNum.num (-1) ∧
    specReconcileExpected "u" bigSt = JsNum.num 1001 ∧
    JsNum.sub (specReconcileExpected "u" bigSt) ((reconcileLedger "u" bigSt).1.actualBalance)
      = JsNum.num 0 := by
  have hstore : bigSt.ledger = List.replicate 1001 bigLedgerEntry := rfl
  have h2 : getUserLedgerEntries "u" 1000 bigSt = List.replicate 1000 bigLedgerEntry := by
    simp only [getUserLedgerEntries, hstore, replicate_filter_user, List.take_replicate]
    have hmin : (1000 : Nat) ⊓ 1001 = 1000 := by norm_num
    rw [hmin]
  have hexp : (reconcileLedger "u" bigSt).1.expectedBalance = JsNum.num 1000 := by
    simp only [reconcileLedger, h2, replicate_filter_completed, foldl_reconcileStep_replicate]
    norm_num
  have hact : (reconcileLedger "u" bigSt).1.actualBalance = JsNum.num 1001 := rfl
  have hdiff : (reconcileLedger "u" bigSt).1.difference = JsNum.num (-1) := by
    simp only [reconcileLedger, h2, replicate_filter_completed, foldl_reconcileStep_replicate]
    norm_num
    decide
  have hspec : specReconcileExpected "u" bigSt = JsNum.num 1001 := by
    simp only [specReconcileExpected, hstore, replicate_filter_user,
      replicate_filter_completed, foldl_reconcileStep_replicate]
    norm_num
  refine ⟨hexp, hact, hdiff, hspec, ?_⟩
  rw [hspec, hact]
  rfl

/-- C7, amended: reconciliation performs no write (the state is returned
unchanged), treats a missing balance as zero, and reports the signed
difference between the replayed sum and the cached available balance — but
the replayed sum ranges over the 1000 most recent entries of the account, not
all of them; whenever the account has at most 1000 entries this coincides
with the sum over all completed entries, as the claim describes. -/
theorem C7_reconcile_reads_only_latest_1000 (userId : String) (s : St) :
    (reconcileLedger userId s).2 = s ∧
    (reconcileLedger userId s).1.expectedBalance =
      ((getUserLedgerEntries userId 1000 s).filter (fun e => e.status == "completed")).foldl
        reconcileStep (JsNum.num 0) ∧
    (reconcileLedger userId s).1.actualBalance =
      jsOrZero ((getUserBalance userId s).map (fun b => b.available_balance)) ∧
    (reconcileLedger userId s).1.difference =
      JsNum.sub ((reconcileLedger userId s).1.expectedBalance)
        ((reconcileLedger userId s).1.actualBalance) ∧
    ((s.ledger.filter (fun e => e.user_id == userId)).length ≤ 1000 →
      (reconcileLedger userId s).1.expectedBalance = specReconcileExpected userId s) := by
  refine ⟨rfl, rfl, rfl, rfl, ?_⟩
  intro h
  simp only [reconcileLedger, specReconcileExpected, getUserLedgerEntries,
    List.take_of_length_le h]

/-- C7 witness: on the small store (0 entries for "u"), the code's expected
balance coincides with the sum over all completed entries. -/
theorem C7_witness :
    (reconcileLedger "u" sampleSt).1.expectedBalance = specReconcileExpected "u" sampleSt :=
  (C7_reconcile_reads_only_latest_1000 "u" sampleSt).2.2.2.2 (by decide)

/-! ## C8 -/

/-- Unfolding of one sweep step over the retry collection. -/
lemma processRetriesSweep_cons (outcome : FailedWebhook → Bool) (now : Nat)
    (a : FailedWebhook) (t : List FailedWebhook) :
    processRetriesSweep outcome now (a :: t) =
      if isDueForRetry now a then
        (if outcome a then processRetriesSweep outcome now t
         else handleRetryFailure a "Processing failed" now :: processRetriesSweep outcome now t)
      else a :: processRetriesSweep outcome now t := rfl

/-- A permanently-failed retry record, 30+ days old at cleanup time. -/
def permanentlyFailedRec : FailedWebhook :=
  { id := "w1", provider := "wave", payload := "p", error := "e", retryCount := 5,
    nextRetryAt := 0, createdAt := 0, status := some "permanently_failed" }

/-- C8, counterexample. The claim says a record marked permanently_failed is
never deleted. It is indeed never selected for a retry again — but
`cleanupOldRetries` deletes every record older than its age cutoff with no
status filter, permanently-failed ones included: here the 30-day cleanup
removes the permanently-failed record from the collection. -/
theorem C8_counterexample :
    cleanupOldRetries 30 (30 * 24 * 60 * 60 * 1000 + 1) [permanentlyFailedRec] = [] ∧
    permanentlyFailedRec.status = some "permanently_failed" ∧
    isDueForRetry (30 * 24 * 60 * 60 * 1000 + 1) permanentlyFailedRec = false := by
  decide

/-- C8, amended: a retry record is created with `retry_count = 0` and first
retry due 1s later; each failure bumps the count and reschedules after the
table delay (5s, 15s, 1m, 5m for counts 1-4); the failure that reaches
`maxRetries = 5` marks the record permanently_failed instead of rescheduling
(an update, not a delete); a record with count ≥ 5 is never due again and a
processing sweep keeps it untouched. The retry pipeline itself never deletes
such a record — but the separate `cleanupOldRetries` operation deletes any
record older than its age cutoff regardless of status, permanently-failed
records included. -/
theorem C8_retry_budget_and_backoff (r : FailedWebhook) (e : String) (now : Nat)
    (rs : List FailedWebhook) (outcome : FailedWebhook → Bool)
    (webhookId provider payload err : String) :
    ((scheduleRetry webhookId provider payload err now).retryCount = 0 ∧
     (scheduleRetry webhookId provider payload err now).nextRetryAt = now + 1000 ∧
     (scheduleRetry webhookId provider payload err now).status = none) ∧
    (r.retryCount + 1 < RETRY_maxRetries →
      (handleRetryFailure r e now).retryCount = r.retryCount + 1 ∧
      (handleRetryFailure r e now).nextRetryAt =
        now + RETRY_retryDelays.getD (r.retryCount + 1) 0 ∧
      (handleRetryFailure r e now).status = r.status) ∧
    (RETRY_maxRetries ≤ r.retryCount + 1 →
      handleRetryFailure r e now =
        { r with retryCount := r.retryCount + 1, status := some "permanently_failed" }) ∧
    (RETRY_maxRetries ≤ r.retryCount → isDueForRetry now r = false) ∧
    (∀ x ∈ rs, RETRY_maxRetries ≤ x.retryCount → x ∈ processRetriesSweep outcome now rs) := by
  refine ⟨⟨rfl, rfl, rfl⟩, ?_, ?_, ?_, ?_⟩
  · intro hlt
    have hk : r.retryCount = 0 ∨ r.retryCount = 1 ∨ r.retryCount = 2 ∨ r.retryCount = 3 := by
      simp only [RETRY_maxRetries] at hlt
      omega
    rcases hk with hk | hk | hk | hk <;>
      simp [handleRetryFailure, retryDelayFor, RETRY_maxRetries, RETRY_retryDelays, hk]
  · intro hge
    simp [handleRetryFailure, if_pos hge]
  · intro hge
    simp only [isDueForRetry, RETRY_maxRetries]
    have : ¬ (r.retryCount < 5) := by simp only [RETRY_maxRetries] at hge; omega
    simp [this]
  · intro x hx hge
    have hdue : isDueForRetry now x = false := by
      simp only [isDueForRetry, RETRY_maxRetries]
      have : ¬ (x.retryCount < 5) := by simp only [RETRY_maxRetries] at hge; omega
      simp [this]
    induction rs with
    | nil => cases hx
    | cons a t ih =>
        rw [processRetriesSweep_cons]
        rcases List.mem_cons.mp hx with hxa | hxt
        · subst hxa
          rw [hdue]
          exact List.mem_cons_self x (processRetriesSweep outcome now t)
        · have hmem := ih hxt
          split_ifs <;> simp [hmem]

/-- A retry record on its third failure (count 2). -/
def retryRecAt2 : FailedWebhook := { permanentlyFailedRec with retryCount := 2, status := none }

/-- A retry record on its fifth failure (count 4). -/
def retryRecAt4 : FailedWebhook := { permanentlyFailedRec with retryCount := 4, status := none }

/-- C8 witness: the budget/backoff theorem applied concretely — a failure at
count 2 reschedules 1 minute later keeping the status; the failure at count 4
marks the record permanently_failed; the permanently-failed record is not due
and survives a sweep. -/
theorem C8_witness :
    ((handleRetryFailure retryRecAt2 "boom" 50).retryCount = 3 ∧
     (handleRetryFailure retryRecAt2 "boom" 50).nextRetryAt =
       50 + RETRY_retryDelays.getD 3 0 ∧
     (handleRetryFailure retryRecAt2 "boom" 50).status = none) ∧
    handleRetryFailure retryRecAt4 "boom" 50 =
      { retryRecAt4 with retryCount := 5, status := some "permanently_failed" } ∧
    isDueForRetry 999 permanentlyFailedRec = false ∧
    permanentlyFailedRec ∈ processRetriesSweep (fun _ => true) 999 [permanentlyFailedRec] := by
  refine ⟨(C8_retry_budget_and_backoff retryRecAt2 "boom" 50 [] (fun _ => true)
      "w" "p" "pl" "er").2.1 (by decide),
    (C8_retry_budget_and_backoff retryRecAt4 "boom" 50 [] (fun _ => true)
      "w" "p" "pl" "er").2.2.1 (by decide),
    (C8_retry_budget_and_backoff permanentlyFailedRec "boom" 999 [] (fun _ => true)
      "w" "p" "pl" "er").2.2.2.1 (by decide),
    (C8_retry_budget_and_backoff permanentlyFailedRec "boom" 999 [permanentlyFailedRec]
      (fun _ => true) "w" "p" "pl" "er").2.2.2.2 permanentlyFailedRec (by decide) (by decide)⟩

/-! ## C9 -/

/-- A concrete stand-in for the HMAC-SHA256 hex digest, used by witnesses. -/
def hmacConcat : String → String → String := fun secret payload => secret ++ payload

/-- An environment with NODE_ENV=development but both providers configured
for production (not sandbox), with secrets present. -/
def devMiddlewareEnv : MiddlewareEnv :=
  { nodeEnv := "development", functionsEmulator := false,
    wave := { environment := "production", webhookSecret := "sec" },
    orange_money := { environment := "production", webhookSecret := "sec" } }

/-- The same configuration with NODE_ENV=production. -/
def prodMiddlewareEnv : MiddlewareEnv :=
  { devMiddlewareEnv with nodeEnv := "production" }

/-- A Wave webhook request carrying no signature at all. -/
def noSignatureReq : WebhookRequest :=
  { xWaveSignature := none, xOrangeSignature := none, signatureHeader := none,
    xProvider := none, body_has_wave_id := true, body_has_order_id := false,
    query_has_order_id := false, payload := "body" }

/-- The same request with a wrong Wave signature. -/
def badSigReq : WebhookRequest := { noSignatureReq with xWaveSignature := some "bad" }

/-- The same request with the signature matching the digest of "body" under
secret "sec". -/
def goodSigReq : WebhookRequest := { noSignatureReq with xWaveSignature := some "secbody" }

/-- C9, counterexample. The claim says a request with a missing signature is
rejected, the verification being bypassable only in sandbox configuration.
But with NODE_ENV=development — while both providers are configured for
production, not sandbox — the middleware lets a signature-less webhook
request through. -/
theorem C9_counterexample :
    webhookSignatureVerification hmacConcat devMiddlewareEnv noSignatureReq =
      MiddlewareResult.next ∧
    devMiddlewareEnv.wave.environment ≠ "sandbox" ∧
    devMiddlewareEnv.orange_money.environment ≠ "sandbox" ∧
    strFalsy (jsStrOr (jsStrOr noSignatureReq.xWaveSignature noSignatureReq.xOrangeSignature)
      noSignatureReq.signatureHeader) = true := by
  decide

/-- C9, amended: outside the development/emulator configuration a missing
signature is rejected with MISSING_SIGNATURE (in development or under the
emulator it is let through); for a request with a signature whose provider
resolves to Wave or to Orange Money, when that provider is not in sandbox and
its secret is configured, the request passes exactly when the signature
equals the HMAC digest of the payload under that provider's shared secret
and is rejected with INVALID_SIGNATURE on mismatch; with the provider in
sandbox the comparison is bypassed entirely; with no secret configured the
request is rejected; and a request whose provider resolves to neither known
provider never verifies. -/
theorem C9_signature_verification (hmac : String → String → String)
    (env : MiddlewareEnv) (req : WebhookRequest) :
    (strFalsy (jsStrOr (jsStrOr req.xWaveSignature req.xOrangeSignature) req.signatureHeader) = true →
      env.nodeEnv ≠ "development" → env.functionsEmulator = false →
      webhookSignatureVerification hmac env req = .reject 401 "MISSING_SIGNATURE") ∧
    (strFalsy (jsStrOr (jsStrOr req.xWaveSignature req.xOrangeSignature) req.signatureHeader) = true →
      (env.nodeEnv = "development" ∨ env.functionsEmulator = true) →
      webhookSignatureVerification hmac env req = .next) ∧
    (∀ sig, jsStrOr (jsStrOr req.xWaveSignature req.xOrangeSignature) req.signatureHeader = some sig →
      sig ≠ "" →
      (if strFalsy req.xProvider then detectProvider req else req.xProvider.getD "") = "wave" →
      env.wave.environment ≠ "sandbox" → env.wave.webhookSecret ≠ "" →
      (webhookSignatureVerification hmac env req = .next ↔
        sig = hmac env.wave.webhookSecret req.payload) ∧
      (sig ≠ hmac env.wave.webhookSecret req.payload →
        webhookSignatureVerification hmac env req = .reject 401 "INVALID_SIGNATURE")) ∧
    (∀ sig, jsStrOr (jsStrOr req.xWaveSignature req.xOrangeSignature) req.signatureHeader = some sig →
      sig ≠ "" →
      (if strFalsy req.xProvider then detectProvider req else req.xProvider.getD "") = "wave" →
      env.wave.environment = "sandbox" →
      webhookSignatureVerification hmac env req = .next) ∧
    (∀ sig, jsStrOr (jsStrOr req.xWaveSignature req.xOrangeSignature) req.signatureHeader = some sig →
      sig ≠ "" →
      (if strFalsy req.xProvider then detectProvider req else req.xProvider.getD "") = "wave" →
      env.wave.environment ≠ "sandbox" → env.wave.webhookSecret = "" →
      webhookSignatureVerification hmac env req = .reject 401 "INVALID_SIGNATURE") ∧
    (∀ sig, jsStrOr (jsStrOr req.xWaveSignature req.xOrangeSignature) req.signatureHeader = some sig →
      sig ≠ "" →
      (if strFalsy req.xProvider then detectProvider req else req.xProvider.getD "") = "orange_money" →
      env.orange_money.environment ≠ "sandbox" → env.orange_money.webhookSecret ≠ "" →
      (webhookSignatureVerification hmac env req = .next ↔
        sig = hmac env.orange_money.webhookSecret req.payload) ∧
      (sig ≠ hmac env.orange_money.webhookSecret req.payload →
        webhookSignatureVerification hmac env req = .reject 401 "INVALID_SIGNATURE")) ∧
    (∀ sig, jsStrOr (jsStrOr req.xWaveSignature req.xOrangeSignature) req.signatureHeader = some sig →
      sig ≠ "" →
      (if strFalsy req.xProvider then detectProvider req else req.xProvider.getD "") = "orange_money" →
      env.orange_money.environment = "sandbox" →
      webhookSignatureVerification hmac env req = .next) ∧
    (∀ sig, jsStrOr (jsStrOr req.xWaveSignature req.xOrangeSignature) req.signatureHeader = some sig →
      sig ≠ "" →
      (if strFalsy req.xProvider then detectProvider req else req.xProvider.getD "") = "orange_money" →
      env.orange_money.environment ≠ "sandbox" → env.orange_money.webhookSecret = "" →
      webhookSignatureVerification hmac env req = .reject 401 "INVALID_SIGNATURE") ∧
    (∀ sig, jsStrOr (jsStrOr req.xWaveSignature req.xOrangeSignature) req.signatureHeader = some sig →
      sig ≠ "" →
      (if strFalsy req.xProvider then detectProvider req else req.xProvider.getD "") ≠ "wave" →
      (if strFalsy req.xProvider then detectProvider req else req.xProvider.getD "") ≠ "orange_money" →
      webhookSignatureVerification hmac env req = .reject 401 "INVALID_SIGNATURE") := by
  refine ⟨?_, ?_, ?_, ?_, ?_, ?_, ?_, ?_, ?_⟩
  · intro hsig hdev hemu
    simp only [webhookSignatureVerification, hsig]
    simp [hdev, hemu]
  · intro hsig hbyp
    simp only [webhookSignatureVerification, hsig]
    rcases hbyp with h | h <;> simp [h]
  · intro sig hsig hne hprov hsand hsec
    have hfs : strFalsy (some sig) = false := by simpa [strFalsy] using hne
    have heq : webhookSignatureVerification hmac env req =
        (if sig = hmac env.wave.webhookSecret req.payload then MiddlewareResult.next
         else MiddlewareResult.reject 401 "INVALID_SIGNATURE") := by
      simp only [webhookSignatureVerification, hsig, hfs, hprov, verifyWaveSignature]
      cases hb : (sig == hmac env.wave.webhookSecret req.payload) <;>
        simp_all [hsand, hsec]
    rw [heq]
    constructor
    · constructor
      · intro h
        by_contra hc
        simp [hc] at h
      · intro h
        simp [h]
    · intro hmis
      simp [hmis]
  · intro sig hsig hne hprov hsand
    have hfs : strFalsy (some sig) = false := by simpa [strFalsy] using hne
    simp only [webhookSignatureVerification, hsig, hfs, hprov, verifyWaveSignature]
    simp [hsand]
  · intro sig hsig hne hprov hsand hsec
    have hfs : strFalsy (some sig) = false := by simpa [strFalsy] using hne
    simp only [webhookSignatureVerification, hsig, hfs, hprov, verifyWaveSignature]
    simp [hsand, hsec]
  · intro sig hsig hne hprov hsand hsec
    have hfs : strFalsy (some sig) = false := by simpa [strFalsy] using hne
    have hnw : ("orange_money" == "wave") = false := by decide
    have heq : webhookSignatureVerification hmac env req =
        (if sig = hmac env.orange_money.webhookSecret req.payload then MiddlewareResult.next
         else MiddlewareResult.reject 401 "INVALID_SIGNATURE") := by
      simp only [webhookSignatureVerification, hsig, hfs, hprov, hnw,
        verifyOrangeMoneySignature]
      cases hb : (sig == hmac env.orange_money.webhookSecret req.payload) <;>
        simp_all [hsand, hsec]
    rw [heq]
    constructor
    · constructor
      · intro h
        by_contra hc
        simp [hc] at h
      · intro h
        simp [h]
    · intro hmis
      simp [hmis]
  · intro sig hsig hne hprov hsand
    have hfs : strFalsy (some sig) = false := by simpa [strFalsy] using hne
    have hnw : ("orange_money" == "wave") = false := by decide
    simp only [webhookSignatureVerification, hsig, hfs, hprov, hnw,
      verifyOrangeMoneySignature]
    simp [hsand]
  · intro sig hsig hne hprov hsand hsec
    have hfs : strFalsy (some sig) = false := by simpa [strFalsy] using hne
    have hnw : ("orange_money" == "wave") = false := by decide
    simp only [webhookSignatureVerification, hsig, hfs, hprov, hnw,
      verifyOrangeMoneySignature]
    simp [hsand, hsec]
  · intro sig hsig hne hprov1 hprov2
    have hfs : strFalsy (some sig) = false := by simpa [strFalsy] using hne
    simp only [webhookSignatureVerification, hsig, hfs]
    simp [hprov1, hprov2]

/-- An Orange Money webhook request with a wrong signature: no Wave fields,
an order id in the body, and an x-orange-signature header. -/
def orangeBadSigReq : WebhookRequest :=
  { xWaveSignature := none, xOrangeSignature := some "bad", signatureHeader := none,
    xProvider := none, body_has_wave_id := false, body_has_order_id := true,
    query_has_order_id := false, payload := "body" }

/-- The same Orange Money request with the signature matching the digest of
"body" under secret "sec". -/
def orangeGoodSigReq : WebhookRequest :=
  { orangeBadSigReq with xOrangeSignature := some "secbody" }

/-- C9 witness: in the production configuration, a missing signature is
rejected with MISSING_SIGNATURE; for each provider a wrong signature is
rejected with INVALID_SIGNATURE and the matching digest passes. -/
theorem C9_witness :
    webhookSignatureVerification hmacConcat prodMiddlewareEnv noSignatureReq =
      MiddlewareResult.reject 401 "MISSING_SIGNATURE" ∧
    webhookSignatureVerification hmacConcat prodMiddlewareEnv badSigReq =
      MiddlewareResult.reject 401 "INVALID_SIGNATURE" ∧
    webhookSignatureVerification hmacConcat prodMiddlewareEnv goodSigReq =
      MiddlewareResult.next ∧
    webhookSignatureVerification hmacConcat prodMiddlewareEnv orangeBadSigReq =
      MiddlewareResult.reject 401 "INVALID_SIGNATURE" ∧
    webhookSignatureVerification hmacConcat prodMiddlewareEnv orangeGoodSigReq =
      MiddlewareResult.next :=
  ⟨(C9_signature_verification hmacConcat prodMiddlewareEnv noSignatureReq).1
      (by decide) (by decide) (by decide),
   ((C9_signature_verification hmacConcat prodMiddlewareEnv badSigReq).2.2.1 "bad"
      (by decide) (by decide) (by decide) (by decide) (by decide)).2 (by decide),
   ((C9_signature_verification hmacConcat prodMiddlewareEnv goodSigReq).2.2.1 "secbody"
      (by decide) (by decide) (by decide) (by decide) (by decide)).1.mpr (by decide),
   ((C9_signature_verification hmacConcat prodMiddlewareEnv orangeBadSigReq).2.2.2.2.2.1 "bad"
      (by decide) (by decide) (by decide) (by decide) (by decide)).2 (by decide),
   ((C9_signature_verification hmacConcat prodMiddlewareEnv orangeGoodSigReq).2.2.2.2.2.1 "secbody"
      (by decide) (by decide) (by decide) (by decide) (by decide)).1.mpr (by decide)⟩

/-! ## C10 -/

/-- C10: frame property of the balance aggregator. Whatever the entry kind,
a successful `updateBalance` stores a balance whose `pending_balance` equals
the prior stored value (zero for a freshly initialized account), whose
`total_balance` equals `available_balance + pending_balance`, whose
`last_updated` is the write time, and whose `user_id`, `currency` and
`last_transaction_id` are carried over unchanged; the only state change is
that one balance document. A failed call changes nothing. -/
theorem C10_updateBalance_frame (userId type currency : String) (amount : JsNum)
    (now : Nat) (s : St) :
    (∀ b s', updateBalance userId amount type currency now s = (Except.ok b, s') →
      b.pending_balance = currentPending userId s ∧
      b.total_balance = JsNum.add b.available_balance b.pending_balance ∧
      b.last_updated = now ∧
      b.user_id = (match getUserBalance userId s with | some p => p.user_id | none => userId) ∧
      b.currency = (match getUserBalance userId s with | some p => p.currency | none => "XOF") ∧
      b.last_transaction_id =
        (match getUserBalance userId s with | some p => p.last_transaction_id | none => none) ∧
      s' = { s with balances := setDoc userId b s.balances }) ∧
    (∀ e s', updateBalance userId amount type currency now s = (Except.error e, s') → s' = s) := by
  constructor
  · intro b s' h
    cases hlk : s.balances.lookup userId <;>
      [skip; skip] <;>
      · simp only [updateBalance, hlk] at h
        split at h <;> simp only [Prod.mk.injEq, Except.ok.injEq] at h <;>
          [skip; skip] <;>
          first
          | (exact absurd h.1 (by simp))
          | (obtain ⟨hb, hs⟩ := h
             subst hb
             subst hs
             refine ⟨?_, rfl, rfl, ?_, ?_, ?_, rfl⟩ <;>
               simp [currentPending, getUserBalance, hlk])
  · intro e s' h
    cases hlk : s.balances.lookup userId <;>
      · simp only [updateBalance, hlk] at h
        split at h <;> simp only [Prod.mk.injEq, Except.error.injEq] at h <;>
          first
          | (exact h.2.symm)
          | (exact absurd h.1 (by simp))

/-- The balance stored after a 5-XOF payment on the 1000-XOF account. -/
def updatedSampleBalance : Balance :=
  { user_id := "u", available_balance := JsNum.num 1005, pending_balance := JsNum.num 0,
    total_balance := JsNum.num 1005, currency := "XOF", last_updated := 3,
    last_transaction_id := none }

/-- The store after that payment. -/
def updatedSampleSt : St :=
  { sampleSt with balances := setDoc "u" updatedSampleBalance sampleSt.balances }

/-- C10 witness: the frame theorem applied to a 5-XOF payment against the
1000-XOF account. -/
theorem C10_witness :
    updatedSampleBalance.pending_balance = currentPending "u" sampleSt ∧
    updatedSampleBalance.total_balance =
      JsNum.add updatedSampleBalance.available_balance updatedSampleBalance.pending_balance ∧
    updatedSampleBalance.last_updated = 3 ∧
    updatedSampleBalance.user_id =
      (match getUserBalance "u" sampleSt with | some p => p.user_id | none => "u") ∧
    updatedSampleBalance.currency =
      (match getUserBalance "u" sampleSt with | some p => p.currency | none => "XOF") ∧
    updatedSampleBalance.last_transaction_id =
      (match getUserBalance "u" sampleSt with | some p => p.last_transaction_id | none => none) ∧
    updatedSampleSt = { sampleSt with balances := setDoc "u" updatedSampleBalance sampleSt.balances } :=
  (C10_updateBalance_frame "u" "payment" "XOF" (JsNum.num 5) 3 sampleSt).1
    updatedSampleBalance updatedSampleSt rfl
